import Mathlib

/-!
Shallow embedding of the Alx_DjangoLearnLab repository.

The repository is a set of Django / Django-REST-Framework tutorial projects.
We embed the pieces of application logic that the claims of the specification are
about:

* `advanced-api-project/api`: the `Book` model with its publication-year
  validation (`Book.clean`, `Book.save`), the `BookSerializer` field
  validator, the custom permission class `IsAuthenticatedForWrite`, and the
  four book API views (list/create, detail, update, delete) together with the
  part of the request dispatch of the framework that decides permission checks and
  status codes.
* `django-models/relationship_app` and
  `advanced_features_and_security/relationship_app`: the `Author`/`Book`
  cascade, the `Library`↔`Book` many-to-many association, the
  `create_userprofile` post-save signal handler and `CustomUserManager`.
* `advanced_features_and_security/bookshelf`: the search filter of the
  `book_list` view.

Databases are modelled as lists of rows; each HTTP view becomes a function
from (request, state) to (status code, new state).
-/

/-- ASCII lowercase of one character, the computable core of `toLower`. -/
def lowerChar (c : Char) : Char :=
  if 'A' ≤ c ∧ c ≤ 'Z' then Char.ofNat (c.toNat + 32) else c

/-- Lowercased character list of a string. -/
def lowerData (s : String) : List Char :=
  s.data.map lowerChar

/-- Case-insensitive substring test: Lean rendering of the ORM text lookup
`field__icontains=q` (case-insensitive containment of `q` in the field). -/
def icontains (hay needle : String) : Bool :=
  decide (lowerData needle <:+: lowerData hay)

namespace Api

/-- A row of the `api.Book` model from `advanced-api-project/api/models.py`:
fields `title`, `publication_year` and the `author` foreign key (held as the
primary key of the referenced author), plus the primary key `id` of the row. -/
structure Book where
  id : Nat
  title : String
  publication_year : Int
  author_id : Nat
  deriving DecidableEq, Repr

/-- A row of the `api.Author` model: primary key and `name`. -/
structure Author where
  id : Nat
  name : String
  deriving DecidableEq, Repr

/-- Outcome of Django model validation: either ok, or a `ValidationError`
carrying a field key and a message, as raised by `Book.clean`. -/
inductive CleanResult where
  | ok : CleanResult
  | error (field : String) (message : String) : CleanResult
  deriving DecidableEq, Repr

/-- `Book.clean` from `advanced-api-project/api/models.py`: raises
a `ValidationError` keyed on `publication_year` when the publication year is
strictly greater than the current year, and accepts otherwise. -/
def bookClean (current_year : Int) (b : Book) : CleanResult :=
  if b.publication_year > current_year then
    CleanResult.error "publication_year" "Publication year cannot be in the future."
  else
    CleanResult.ok

/-- `BookSerializer.validate_publication_year` from
`advanced-api-project/api/serializers.py`: rejects a value strictly greater
than the current year with a field-level `ValidationError` (which the
framework keys on the field name `publication_year`), and returns the value
unchanged otherwise. -/
def validate_publication_year (current_year : Int) (value : Int) : Except String Int :=
  if value > current_year then
    Except.error ("publication_year cannot be greater than " ++ toString current_year ++ ".")
  else
    Except.ok value

/-- The user object attached to a request by authentication; only the
`is_authenticated` flag is consulted by the code under study. -/
structure UserObj where
  is_authenticated : Bool
  deriving DecidableEq, Repr

/-- An HTTP request as seen by the permission classes: the HTTP method and the
optional `request.user` object (`none` models an absent user object). -/
structure Request where
  method : String
  user : Option UserObj
  deriving DecidableEq, Repr

/-- Python truthiness of `request.user and request.user.is_authenticated`:
false when there is no user object, otherwise the flag of the user. -/
def userIsAuthenticated : Option UserObj → Bool
  | none => false
  | some u => u.is_authenticated

/-- `IsAuthenticatedForWrite.has_permission` from
`advanced-api-project/api/views.py`: allows GET/HEAD/OPTIONS for anyone and
every other method only for an authenticated user. -/
def has_permission (r : Request) : Bool :=
  if r.method = "GET" ∨ r.method = "HEAD" ∨ r.method = "OPTIONS" then
    true
  else
    userIsAuthenticated r.user

/-- The DRF `IsAuthenticated` permission: `request.user and
request.user.is_authenticated`. -/
def is_authenticated_permission (r : Request) : Bool :=
  userIsAuthenticated r.user

/-- Status code produced when a permission check fails during dispatch: the
framework raises `NotAuthenticated` (401) for a request without authenticated
credentials and `PermissionDenied` (403) otherwise. -/
def permissionDeniedStatus (r : Request) : Nat :=
  if userIsAuthenticated r.user then 403 else 401

/-- Request body for a Book write, as accepted by `BookSerializer`. -/
structure BookInput where
  title : String
  publication_year : Int
  author_id : Nat
  deriving DecidableEq, Repr

/-- Whether `BookSerializer.is_valid` succeeds on a full write payload; the
only custom validator is the publication-year bound. -/
def serializerValid (current_year : Int) (inp : BookInput) : Bool :=
  decide (inp.publication_year ≤ current_year)

/-- Fresh primary key for an inserted row. -/
def nextId (books : List Book) : Nat :=
  (books.map (fun b => b.id)).foldr Nat.max 0 + 1

/-- `BookListCreateView` dispatch (ListCreateAPIView with permission class
`IsAuthenticatedForWrite`): a denied permission check answers before the
handler runs; GET/HEAD/OPTIONS read; POST validates the payload through
`BookSerializer` and inserts a row on success (201) or answers 400. -/
def bookListCreateView (current_year : Int) (r : Request) (inp : Option BookInput)
    (books : List Book) : Nat × List Book :=
  if has_permission r = false then
    (permissionDeniedStatus r, books)
  else if r.method = "GET" ∨ r.method = "HEAD" ∨ r.method = "OPTIONS" then
    (200, books)
  else if r.method = "POST" then
    match inp with
    | none => (400, books)
    | some i =>
      if serializerValid current_year i then
        (201, books ++ [⟨nextId books, i.title, i.publication_year, i.author_id⟩])
      else
        (400, books)
  else
    (405, books)

/-- `BookDetailView` dispatch (RetrieveAPIView with `AllowAny`): GET answers
200 when the primary key exists and 404 otherwise. -/
def bookDetailView (r : Request) (pk : Nat) (books : List Book) : Nat × List Book :=
  if r.method = "GET" ∨ r.method = "HEAD" ∨ r.method = "OPTIONS" then
    if r.method = "OPTIONS" then
      (200, books)
    else if books.any (fun b => b.id == pk) then
      (200, books)
    else
      (404, books)
  else
    (405, books)

/-- `BookUpdateView` dispatch (UpdateAPIView with `IsAuthenticated`): a denied
permission check answers first; PUT and PATCH fetch the object (404 when
missing), validate through `BookSerializer` and overwrite the row on success
(200). -/
def bookUpdateView (current_year : Int) (r : Request) (pk : Nat) (inp : Option BookInput)
    (books : List Book) : Nat × List Book :=
  if is_authenticated_permission r = false then
    (permissionDeniedStatus r, books)
  else if r.method = "PUT" ∨ r.method = "PATCH" then
    if books.any (fun b => b.id == pk) then
      match inp with
      | none => (400, books)
      | some i =>
        if serializerValid current_year i then
          (200, books.map (fun b => if b.id == pk then ⟨pk, i.title, i.publication_year, i.author_id⟩ else b))
        else
          (400, books)
    else
      (404, books)
  else if r.method = "OPTIONS" then
    (200, books)
  else
    (405, books)

/-- `BookDeleteView` dispatch (DestroyAPIView with `IsAuthenticated`): a
denied permission check answers first; DELETE fetches the object (404 when
missing) and removes the row (204). -/
def bookDeleteView (r : Request) (pk : Nat) (books : List Book) : Nat × List Book :=
  if is_authenticated_permission r = false then
    (permissionDeniedStatus r, books)
  else if r.method = "DELETE" then
    if books.any (fun b => b.id == pk) then
      (204, books.filter (fun b => b.id != pk))
    else
      (404, books)
  else if r.method = "OPTIONS" then
    (200, books)
  else
    (405, books)

/-- Query parameters read by the list endpoint; `request.query_params.get`
yields `none` when a parameter is absent. -/
structure QueryParams where
  author_id : Option String
  search : Option String
  deriving DecidableEq, Repr

/-- `BookListCreateView.get_queryset` from `advanced-api-project/api/views.py`:
starts from all books and narrows by the `author_id` query parameter when that
parameter is present and truthy (a non-empty string); no other query
parameter is consulted. -/
def get_queryset (qp : QueryParams) (books : List Book) : List Book :=
  match qp.author_id with
  | none => books
  | some a => if a = "" then books else books.filter (fun b => Nat.repr b.author_id == a)

/-- Database state of the `api` app: author rows and book rows. -/
structure DbState where
  authors : List Author
  books : List Book
  deriving DecidableEq, Repr

/-- Deleting an `Author` row: with `on_delete=models.CASCADE` on
`Book.author`, the delete removes the author row and every `Book` row whose
foreign key references it. -/
def deleteAuthor (aid : Nat) (s : DbState) : DbState :=
  { authors := s.authors.filter (fun a => a.id != aid),
    books := s.books.filter (fun b => b.author_id != aid) }

/-- Insert-or-update of a book row keyed on the primary key, as performed by
the base `Model.save`. -/
def upsertBook (b : Book) (store : List Book) : List Book :=
  if store.any (fun x => x.id == b.id) then
    store.map (fun x => if x.id == b.id then b else x)
  else
    store ++ [b]

/-- `Book.save` from `advanced-api-project/api/models.py`: runs `full_clean`
(whose custom part is `Book.clean`) and only then writes the row; a
`ValidationError` aborts the save with the store untouched. -/
def book_save (current_year : Int) (b : Book) (store : List Book) :
    Except (String × String) (List Book) :=
  match bookClean current_year b with
  | CleanResult.error f m => Except.error (f, m)
  | CleanResult.ok => Except.ok (upsertBook b store)

/-- One attempted save: the calendar year at the moment of the call and the
book instance being saved. -/
structure SaveEvent where
  year : Int
  book : Book
  deriving DecidableEq, Repr

/-- A sequence of attempted saves: a failed save leaves the store unchanged,
a successful one commits the upsert. -/
def processSaves : List SaveEvent → List Book → List Book
  | [], store => store
  | e :: rest, store =>
    match book_save e.year e.book store with
    | Except.ok store2 => processSaves rest store2
    | Except.error _ => processSaves rest store

end Api

namespace RelApp

/-- A `UserProfile` row from `relationship_app/models.py`: the one-to-one
`user` foreign key (held as the primary key of the user) and the `role` field,
whose declared default is `"member"`. -/
structure UserProfile where
  user_id : Nat
  role : String
  deriving DecidableEq, Repr

/-- Database state of the user/profile pair: user primary keys and profile
rows. -/
structure UserState where
  users : List Nat
  profiles : List UserProfile
  deriving DecidableEq, Repr

/-- Signal handler `create_userprofile` from
`django-models/relationship_app/signals.py`: on a `post_save` with
`created=True` it inserts a `UserProfile` for the saved user with role
`member`; it does nothing otherwise. -/
def create_userprofile (created : Bool) (uid : Nat) (s : UserState) : UserState :=
  if created then
    { s with profiles := s.profiles ++ [⟨uid, "member"⟩] }
  else
    s

/-- Saving a user row: the row is inserted when new, and the `post_save`
signal fires with `created` true exactly in that case, running
`create_userprofile` (the second receiver, `save_userprofile`, only re-saves
an existing profile and does not change state). -/
def saveUser (uid : Nat) (s : UserState) : UserState :=
  let created := !(s.users.any (fun u => u == uid))
  let s1 := if created then { s with users := s.users ++ [uid] } else s
  create_userprofile created uid s1

/-- The `Library.books` many-to-many association from
`relationship_app/models.py`, as its through table: a list of
(library id, book id) pairs with no duplicate pair. -/
def M2MTable : Type := List (Nat × Nat)

/-- A single `library.books.add(book)`: the pair is inserted unless it is
already present (uniqueness of the through table makes a repeated add a
no-op). -/
def m2m_add (assoc : List (Nat × Nat)) (lib bid : Nat) : List (Nat × Nat) :=
  if (lib, bid) ∈ assoc then assoc else assoc ++ [(lib, bid)]

/-- Adding a sequence of books to one library, left to right. -/
def m2m_add_all (assoc : List (Nat × Nat)) (lib : Nat) (bids : List Nat) : List (Nat × Nat) :=
  bids.foldl (fun a b => m2m_add a lib b) assoc

/-- The book set of a library (`library.books.all()`): the second components
of the association pairs whose first component is the library. -/
def library_books (assoc : List (Nat × Nat)) (lib : Nat) : List Nat :=
  (assoc.filter (fun p => p.1 == lib)).map (fun p => p.2)

/-- A stored password: `set_password` stores a salted hash derived from the
raw password (possibly `None`), never the raw value itself. -/
inductive StoredPassword where
  | hashed (raw : Option String)
  deriving DecidableEq, Repr

/-- A `CustomUser` row as far as `create_user` determines it: the stored
email and the stored password hash. -/
structure UserRow where
  email : String
  password : StoredPassword
  deriving DecidableEq, Repr

/-- User table of the custom-user app. -/
structure UserDb where
  users : List UserRow
  deriving DecidableEq, Repr

/-- The Django `BaseUserManager.normalize_email`, which
`CustomUserManager.create_user` calls: strip the address, split it at the
last `@`, lowercase the domain part; an address without `@` is returned
unchanged. -/
def normalize_email (email : String) : String :=
  match (email.trim.splitOn "@").reverse with
  | [] => email
  | [_] => email
  | domain :: restRev =>
    String.intercalate "@" restRev.reverse ++ "@" ++ domain.toLower

/-- `CustomUserManager.create_user` from
`advanced_features_and_security/relationship_app/models.py`: a falsy email
(`None` or the empty string) raises a `ValueError` saying the email field
must be set, before anything is written; otherwise the user is built with the
normalized email, `set_password` stores the hash of the supplied password,
and the row is saved. -/
def create_user (email : Option String) (password : Option String) (db : UserDb) :
    Except String UserDb :=
  match email with
  | none => Except.error "The Email field must be set"
  | some e =>
    if e = "" then
      Except.error "The Email field must be set"
    else
      Except.ok ⟨db.users ++ [⟨normalize_email e, StoredPassword.hashed password⟩]⟩

end RelApp

namespace Bookshelf

/-- Modelled from the spec: `bookshelf/models.py` is not in the source tree;
per the data-model table of the spec and the bookshelf `forms.py`/`admin.py` (text
inputs and search fields for `title` and `author`), a bookshelf `Book` has
textual `title` and `author` fields and an integer `publication_year`. -/
structure Book where
  title : String
  author : String
  publication_year : Int
  deriving DecidableEq, Repr

/-- Queryset construction of the `book_list` view from
`advanced_features_and_security/bookshelf/views.py`: read the `search` query
parameter (defaulting to the empty string), strip it, and when the result is non-empty keep the
books whose `title` or `author` contains it case-insensitively
(`Q(title__icontains=q) | Q(author__icontains=q)`); otherwise keep all
books. -/
def book_list (books : List Book) (searchParam : Option String) : List Book :=
  let search_query := (searchParam.getD "").trim
  if search_query ≠ "" then
    books.filter (fun b => icontains b.title search_query || icontains b.author search_query)
  else
    books

end Bookshelf

/-- C1: a `Book` write through the model save path (`Book.clean`) or through
`BookSerializer.validate_publication_year` is rejected with a validation
error keyed on `publication_year` exactly when the supplied publication year
is strictly greater than the current year; every year at most the current
year is accepted, the serializer returning the value unchanged. -/
theorem c1_publication_year_validation (cy : Int) (b : Api.Book) (y : Int) :
    ((∃ m, Api.bookClean cy b = Api.CleanResult.error "publication_year" m) ↔
      cy < b.publication_year)
    ∧ (Api.bookClean cy b = Api.CleanResult.ok ↔ b.publication_year ≤ cy)
    ∧ ((∃ m, Api.validate_publication_year cy y = Except.error m) ↔ cy < y)
    ∧ (Api.validate_publication_year cy y = Except.ok y ↔ y ≤ cy) := by
  refine ⟨?_, ?_, ?_, ?_⟩
  · rcases lt_or_le cy b.publication_year with h | h
    · simp [Api.bookClean, gt_iff_lt, h]
    · simp [Api.bookClean, gt_iff_lt, not_lt.mpr h, h]
  · rcases lt_or_le cy b.publication_year with h | h
    · simp [Api.bookClean, gt_iff_lt, h, not_le.mpr h]
    · simp [Api.bookClean, gt_iff_lt, not_lt.mpr h, h]
  · rcases lt_or_le cy y with h | h
    · simp [Api.validate_publication_year, gt_iff_lt, h]
    · simp [Api.validate_publication_year, gt_iff_lt, not_lt.mpr h, h]
  · rcases lt_or_le cy y with h | h
    · simp [Api.validate_publication_year, gt_iff_lt, h, not_le.mpr h]
    · simp [Api.validate_publication_year, gt_iff_lt, not_lt.mpr h, h]

/-- C2: `IsAuthenticatedForWrite.has_permission` answers true exactly when
the request method is GET, HEAD or OPTIONS, or the request carries a user
object whose `is_authenticated` flag is set; so every read-method request is
permitted regardless of authentication, and every other method exactly when
the user is authenticated. -/
theorem c2_is_authenticated_for_write (r : Api.Request) :
    Api.has_permission r = true ↔
      (r.method = "GET" ∨ r.method = "HEAD" ∨ r.method = "OPTIONS"
        ∨ ∃ u, r.user = some u ∧ u.is_authenticated = true) := by
  unfold Api.has_permission
  split
  · next h =>
    constructor
    · intro _
      rcases h with h | h | h
      · exact Or.inl h
      · exact Or.inr (Or.inl h)
      · exact Or.inr (Or.inr (Or.inl h))
    · intro _
      rfl
  · next h =>
    push_neg at h
    obtain ⟨h1, h2, h3⟩ := h
    cases hu : r.user with
    | none => simp [Api.userIsAuthenticated, h1, h2, h3, hu]
    | some u => simp [Api.userIsAuthenticated, h1, h2, h3, hu]

/-- C6: deleting an `Author` cascades to its `Book` rows: after
`deleteAuthor` a book row survives exactly when it was present before and
its foreign key does not reference the deleted author, so no book row
referencing the deleted author remains (nor does the author row itself). -/
theorem c6_author_delete_cascades (aid : Nat) (s : Api.DbState) (b : Api.Book) :
    (b ∈ (Api.deleteAuthor aid s).books ↔ b ∈ s.books ∧ b.author_id ≠ aid)
    ∧ ((Api.deleteAuthor aid s).books.any (fun x => x.author_id == aid) = false)
    ∧ ((Api.deleteAuthor aid s).authors.any (fun a => a.id == aid) = false) := by
  refine ⟨?_, ?_, ?_⟩
  · simp [Api.deleteAuthor, List.mem_filter]
  · rw [Bool.eq_false_iff]
    simp only [Api.deleteAuthor, ne_eq, List.any_eq_true, List.mem_filter, bne_iff_ne,
      beq_iff_eq, not_exists, not_and]
    intro x hx
    exact hx.2
  · rw [Bool.eq_false_iff]
    simp only [Api.deleteAuthor, ne_eq, List.any_eq_true, List.mem_filter, bne_iff_ne,
      beq_iff_eq, not_exists, not_and]
    intro a ha
    exact ha.2

/-- C10: the bookshelf `book_list` result contains every book when the
`search` parameter is absent, empty or whitespace-only (empty after
stripping); otherwise it contains exactly the books whose title or author
contains the stripped search string case-insensitively. -/
theorem c10_bookshelf_search (books : List Bookshelf.Book) (s : Option String)
    (b : Bookshelf.Book) :
    b ∈ Bookshelf.book_list books s ↔
      b ∈ books ∧
        ((s.getD "").trim = ""
          ∨ icontains b.title ((s.getD "").trim) = true
          ∨ icontains b.author ((s.getD "").trim) = true) := by
  unfold Bookshelf.book_list
  by_cases h : (s.getD "").trim = ""
  · simp [h]
  · simp [h, List.mem_filter, Bool.or_eq_true]

/-- C5 (counterexample): supplying a `search` query parameter to the book
list endpoint does not restrict the result. With one stored book whose
title, author id and year do not contain the search term `"zzz"` in any
form, `get_queryset` still returns the full collection, contradicting the
claim that the response then contains only matching books. -/
theorem c5_search_counterexample :
    Api.get_queryset ⟨none, some "zzz"⟩ [⟨1, "Dune", 1965, 1⟩]
      = [⟨1, "Dune", 1965, 1⟩]
    ∧ icontains "Dune" "zzz" = false
    ∧ icontains "1965" "zzz" = false
    ∧ icontains "1" "zzz" = false := by
  refine ⟨rfl, ?_, ?_, ?_⟩ <;> decide

/-- C5 (amended): the book list endpoint filters only by the `author_id`
query parameter; the `search` parameter is ignored, the result being the
same whatever value it holds, and a present non-empty `author_id` keeps
exactly the books whose author foreign key matches it. -/
theorem c5_author_id_filter_only (books : List Api.Book) (aid s s2 : Option String)
    (a : String) (b : Api.Book) :
    Api.get_queryset ⟨aid, s⟩ books = Api.get_queryset ⟨aid, s2⟩ books
    ∧ Api.get_queryset ⟨none, s⟩ books = books
    ∧ Api.get_queryset ⟨some a, s⟩ books =
        (if a = "" then books else books.filter (fun x => Nat.repr x.author_id == a))
    ∧ (b ∈ Api.get_queryset ⟨some a, s⟩ books ↔
        b ∈ books ∧ (a = "" ∨ Nat.repr b.author_id = a)) := by
  refine ⟨?_, rfl, rfl, ?_⟩
  · cases aid <;> rfl
  · by_cases h : a = ""
    · simp [Api.get_queryset, h]
    · simp [Api.get_queryset, h, List.mem_filter]

/-- C9: `CustomUserManager.create_user` raises
a `ValueError` about the email field exactly when the supplied email
is falsy (`None` or empty), writing nothing in that case; for any other
email the saved row carries the normalized email and the hash of the
supplied password, appended to the user table. -/
theorem c9_create_user (email password : Option String) (db : RelApp.UserDb)
    (e : String) :
    ((∃ m, RelApp.create_user email password db = Except.error m) ↔
      (email = none ∨ email = some ""))
    ∧ (RelApp.create_user (some e) password db =
        (if e = "" then Except.error "The Email field must be set"
         else Except.ok ⟨db.users ++
            [⟨RelApp.normalize_email e, RelApp.StoredPassword.hashed password⟩]⟩)) := by
  constructor
  · cases email with
    | none => simp [RelApp.create_user]
    | some e2 =>
      by_cases h : e2 = "" <;> simp [RelApp.create_user, h]
  · by_cases h : e = "" <;> simp [RelApp.create_user, h]

/-- C3: an unauthenticated POST to the list/create endpoint, PUT or PATCH to
the update endpoint, or DELETE to the delete endpoint answers with status 401
or 403 and leaves the book table untouched; a GET succeeds (200) on the list
endpoint for any requester and on the detail endpoint whenever the requested
primary key exists. -/
theorem c3_unauthenticated_write_rejection (cy : Int) (r : Api.Request)
    (inp : Option Api.BookInput) (pk : Nat) (books : List Api.Book)
    (hu : Api.userIsAuthenticated r.user = false) :
    (r.method = "POST" →
      (Api.bookListCreateView cy r inp books).1 ∈ [401, 403]
      ∧ (Api.bookListCreateView cy r inp books).2 = books)
    ∧ ((r.method = "PUT" ∨ r.method = "PATCH") →
      (Api.bookUpdateView cy r pk inp books).1 ∈ [401, 403]
      ∧ (Api.bookUpdateView cy r pk inp books).2 = books)
    ∧ (r.method = "DELETE" →
      (Api.bookDeleteView r pk books).1 ∈ [401, 403]
      ∧ (Api.bookDeleteView r pk books).2 = books)
    ∧ (∀ r2 : Api.Request, r2.method = "GET" →
      (Api.bookListCreateView cy r2 inp books).1 = 200
      ∧ (books.any (fun x => x.id == pk) = true →
          (Api.bookDetailView r2 pk books).1 = 200)) := by
  refine ⟨?_, ?_, ?_, ?_⟩
  · intro hm
    simp [Api.bookListCreateView, Api.has_permission, Api.permissionDeniedStatus, hm, hu]
  · intro _
    simp [Api.bookUpdateView, Api.is_authenticated_permission, Api.permissionDeniedStatus, hu]
  · intro _
    simp [Api.bookDeleteView, Api.is_authenticated_permission, Api.permissionDeniedStatus, hu]
  · intro r2 hm
    constructor
    · simp [Api.bookListCreateView, Api.has_permission, hm]
    · intro hpk
      simp [Api.bookDetailView, hm, hpk]

/-- C3 (witness): with one stored book, an unauthenticated POST is turned
away with 401 and no row change, while an unauthenticated GET on list and
detail both answer 200. -/
theorem c3_witness :
    ((Api.bookListCreateView 2025 ⟨"POST", none⟩ (some ⟨"Dune", 1965, 1⟩)
        [⟨1, "Dune", 1965, 1⟩]).1 ∈ [401, 403]
    ∧ (Api.bookListCreateView 2025 ⟨"POST", none⟩ (some ⟨"Dune", 1965, 1⟩)
        [⟨1, "Dune", 1965, 1⟩]).2 = [⟨1, "Dune", 1965, 1⟩])
    ∧ (Api.bookListCreateView 2025 ⟨"GET", none⟩ (some ⟨"Dune", 1965, 1⟩)
        [⟨1, "Dune", 1965, 1⟩]).1 = 200
    ∧ (Api.bookDetailView ⟨"GET", none⟩ 1 [⟨1, "Dune", 1965, 1⟩]).1 = 200 := by
  have h := c3_unauthenticated_write_rejection 2025 ⟨"POST", none⟩
    (some ⟨"Dune", 1965, 1⟩) 1 [⟨1, "Dune", 1965, 1⟩] rfl
  have hget := h.2.2.2 ⟨"GET", none⟩ rfl
  exact ⟨h.1 rfl, hget.1, hget.2 (by decide)⟩

/-- C4: saving a new user row fires `post_save` with `created = True`, and
`create_userprofile` then leaves exactly one `UserProfile` for that user,
whose role is the default `member` (assuming, as for any fresh primary
key, that neither a user row nor a profile for it existed before). -/
theorem c4_userprofile_autocreated (uid : Nat) (s : RelApp.UserState)
    (hu : s.users.any (fun u => u == uid) = false)
    (hp : s.profiles.filter (fun p => p.user_id == uid) = []) :
    (RelApp.saveUser uid s).profiles.filter (fun p => p.user_id == uid)
      = [⟨uid, "member"⟩] := by
  unfold RelApp.saveUser RelApp.create_userprofile
  simp only [hu, Bool.not_false, if_pos, List.filter_append, hp, List.nil_append]
  simp [hp]

/-- C4 (witness): saving user 7 into a state holding user 1 and its admin
profile leaves exactly one profile for user 7, with role member. -/
theorem c4_witness :
    (RelApp.saveUser 7 ⟨[1], [⟨1, "admin"⟩]⟩).profiles.filter
        (fun p => p.user_id == 7) = [⟨7, "member"⟩] :=
  c4_userprofile_autocreated 7 ⟨[1], [⟨1, "admin"⟩]⟩ (by decide) (by decide)

/-- Helper: the row surviving `full_clean` satisfies the year bound. -/
theorem bookClean_ok_bound {y : Int} {b : Api.Book}
    (h : Api.bookClean y b = Api.CleanResult.ok) : b.publication_year ≤ y := by
  unfold Api.bookClean at h
  by_cases hb : b.publication_year > y
  · rw [if_pos hb] at h
    exact absurd h (by simp)
  · exact le_of_not_lt hb

/-- Helper: a member of an upsert result is the written row or an old row. -/
theorem mem_upsertBook {b x : Api.Book} {store : List Api.Book}
    (hx : x ∈ Api.upsertBook b store) : x = b ∨ x ∈ store := by
  unfold Api.upsertBook at hx
  split at hx
  · rcases List.mem_map.1 hx with ⟨y, hy, hxy⟩
    by_cases h : (y.id == b.id) = true
    · rw [if_pos h] at hxy
      exact Or.inl hxy.symm
    · rw [if_neg h] at hxy
      exact Or.inr (hxy ▸ hy)
  · rcases List.mem_append.1 hx with h | h
    · exact Or.inr h
    · exact Or.inl (List.mem_singleton.1 h)

/-- C7: `Book.save` runs `full_clean` before writing, so any sequence of
attempted saves whose calendar years are bounded by `Y`, starting from a
store whose rows respect the bound, leaves every stored book with
`publication_year ≤ Y`; a failed save changes nothing and a successful one
only commits a validated row. -/
theorem c7_saved_books_bounded (Y : Int) (events : List Api.SaveEvent)
    (store : List Api.Book)
    (he : ∀ e ∈ events, e.year ≤ Y)
    (hs : ∀ b ∈ store, b.publication_year ≤ Y) :
    ∀ b ∈ Api.processSaves events store, b.publication_year ≤ Y := by
  revert he hs
  induction events generalizing store with
  | nil =>
    intro he hs
    simpa [Api.processSaves] using hs
  | cons e rest ih =>
    intro he hs
    have hrest : ∀ x ∈ rest, x.year ≤ Y := fun x hx => he x (List.mem_cons_of_mem _ hx)
    cases hsave : Api.book_save e.year e.book store with
    | error err =>
      simp only [Api.processSaves, hsave]
      exact ih store hrest hs
    | ok store2 =>
      simp only [Api.processSaves, hsave]
      refine ih store2 hrest ?_
      intro x hx
      unfold Api.book_save at hsave
      cases hclean : Api.bookClean e.year e.book with
      | error f m =>
        rw [hclean] at hsave
        exact absurd hsave (by simp)
      | ok =>
        rw [hclean] at hsave
        have hstore2 : Api.upsertBook e.book store = store2 := by
          injection hsave
        rcases mem_upsertBook (hstore2 ▸ hx) with hxb | hxold
        · calc x.publication_year
              = e.book.publication_year := by rw [hxb]
          _ ≤ e.year := bookClean_ok_bound hclean
          _ ≤ Y := he e (List.mem_cons_self _ _)
        · exact hs x hxold

/-- C7 (witness): over years 2024 then 2025, saving a 1965 book and then a
2030 book (the latter rejected by validation) leaves every stored book within
the bound 2025. -/
theorem c7_witness :
    (Api.Book.mk 1 "Dune" 1965 1).publication_year ≤ 2025 :=
  c7_saved_books_bounded 2025
    [⟨2024, ⟨1, "Dune", 1965, 1⟩⟩, ⟨2025, ⟨2, "Future", 2030, 1⟩⟩] []
    (by decide) (by decide) ⟨1, "Dune", 1965, 1⟩ (by decide)

/-- Helper: membership in the book set of a library is exactly membership of the
(library, book) pair in the through table. -/
theorem mem_library_books (assoc : List (Nat × Nat)) (lib x : Nat) :
    x ∈ RelApp.library_books assoc lib ↔ (lib, x) ∈ assoc := by
  unfold RelApp.library_books
  constructor
  · intro hx
    rcases List.mem_map.1 hx with ⟨⟨p1, p2⟩, hp, hpx⟩
    rcases List.mem_filter.1 hp with ⟨hpa, hpl⟩
    simp only [beq_iff_eq] at hpl
    subst hpl
    subst hpx
    exact hpa
  · intro hx
    exact List.mem_map.2 ⟨(lib, x), List.mem_filter.2 ⟨hx, by simp⟩, rfl⟩

/-- Helper: membership in the through table after one `add`. -/
theorem mem_m2m_add (assoc : List (Nat × Nat)) (lib bid : Nat) (q : Nat × Nat) :
    q ∈ RelApp.m2m_add assoc lib bid ↔ q ∈ assoc ∨ q = (lib, bid) := by
  unfold RelApp.m2m_add
  split
  · next h =>
    constructor
    · exact Or.inl
    · rintro (hq | rfl)
      · exact hq
      · exact h
  · next h =>
    simp [List.mem_append]

/-- Helper: the book set after adding a list of books, by induction over the
additions. -/
theorem mem_m2m_add_all (lib : Nat) (bids : List Nat) :
    ∀ (assoc : List (Nat × Nat)) (x : Nat),
      x ∈ RelApp.library_books (RelApp.m2m_add_all assoc lib bids) lib ↔
        x ∈ RelApp.library_books assoc lib ∨ x ∈ bids := by
  induction bids with
  | nil =>
    intro assoc x
    simp [RelApp.m2m_add_all]
  | cons b bs ih =>
    intro assoc x
    have hstep : RelApp.m2m_add_all assoc lib (b :: bs)
        = RelApp.m2m_add_all (RelApp.m2m_add assoc lib b) lib bs := rfl
    rw [hstep, ih]
    simp only [mem_library_books, mem_m2m_add, List.mem_cons, Prod.mk.injEq, true_and]
    tauto

/-- C8: the book set of a library after bulk `add` holds exactly the books added
plus those already associated; under a permutation of the additions the
resulting membership is unchanged, and repeating the additions adds
nothing (the add is commutative and idempotent on the membership set). -/
theorem c8_m2m_set_order_independent (assoc : List (Nat × Nat)) (lib : Nat)
    (bids : List Nat) :
    (∀ x, x ∈ RelApp.library_books (RelApp.m2m_add_all assoc lib bids) lib ↔
        x ∈ RelApp.library_books assoc lib ∨ x ∈ bids)
    ∧ (∀ bids2, bids.Perm bids2 → ∀ x,
        (x ∈ RelApp.library_books (RelApp.m2m_add_all assoc lib bids) lib ↔
         x ∈ RelApp.library_books (RelApp.m2m_add_all assoc lib bids2) lib))
    ∧ (∀ x,
        x ∈ RelApp.library_books (RelApp.m2m_add_all assoc lib (bids ++ bids)) lib ↔
        x ∈ RelApp.library_books (RelApp.m2m_add_all assoc lib bids) lib) := by
  refine ⟨fun x => mem_m2m_add_all lib bids assoc x, ?_, ?_⟩
  · intro bids2 hperm x
    rw [mem_m2m_add_all lib bids assoc x, mem_m2m_add_all lib bids2 assoc x,
      hperm.mem_iff]
  · intro x
    rw [mem_m2m_add_all, mem_m2m_add_all, List.mem_append]
    tauto

/-- C8 (witness): adding books 2 then 3 to library 1 and adding them in the
swapped order give the same membership answer for book 2. -/
theorem c8_witness :
    2 ∈ RelApp.library_books (RelApp.m2m_add_all [] 1 [2, 3]) 1 ↔
      2 ∈ RelApp.library_books (RelApp.m2m_add_all [] 1 [3, 2]) 1 :=
  (c8_m2m_set_order_independent [] 1 [2, 3]).2.1 [3, 2] (List.Perm.swap 3 2 []) 2
